import Mathlib

/-
  Verification development for the entwine addressing core
  (src/entwine/types/structure.cpp) and the executor reprojection glue
  (src/entwine/util/executor.cpp).

  The arbitrary-precision index type Id (declared in a header that is not
  part of the two translated source files) is modelled as Nat, following
  the specification of the index arithmetic: an unsigned integer of
  unbounded magnitude with `+ - * / %`, div-mod and left shift, where
  subtraction in every verified code path is applied to a non-negative
  difference (Nat subtraction truncates at zero otherwise).

  The anonymous-namespace helper log2 wraps std::log2 truncated to an
  unsigned integer; over the arbitrary-precision values the specification
  mandates a numerically stable floor logarithm, so it is modelled as the
  exact base-2 floor logarithm, implemented below by structural recursion
  on a fuel argument so that it evaluates inside the kernel.
-/

namespace Entwine

/-- Decidable equality of Except values, used to evaluate constructor
outcomes on concrete configurations. -/
instance {ε α : Type} [DecidableEq ε] [DecidableEq α] :
    DecidableEq (Except ε α) := fun x y =>
  match x, y with
  | Except.ok a, Except.ok b =>
    if h : a = b then Decidable.isTrue (by rw [h])
    else Decidable.isFalse (by simp [h])
  | Except.error a, Except.error b =>
    if h : a = b then Decidable.isTrue (by rw [h])
    else Decidable.isFalse (by simp [h])
  | Except.ok _, Except.error _ => Decidable.isFalse (by simp)
  | Except.error _, Except.ok _ => Decidable.isFalse (by simp)

/-- Fuel-driven floor logarithm base 2: with fuel at least the argument it
computes the exact floor of log2. -/
def log2Fuel : Nat → Nat → Nat
  | 0, _ => 0
  | fuel+1, n => if 2 ≤ n then log2Fuel fuel (n / 2) + 1 else 0

/-- Model of the anonymous-namespace log2 helper of structure.cpp:
floor of the base-2 logarithm (log2 0 is 0; the C++ source never relies
on the value at 0 in a verified path). -/
def log2 (val : Nat) : Nat := log2Fuel val val

/-- ChunkInfo::binaryPow: 1 shifted left by exp * baseLog2, i.e.
(2 ^ baseLog2) ^ exp. -/
def binaryPow (baseLog2 exp : Nat) : Nat := 1 <<< (exp * baseLog2)

/-- ChunkInfo::calcDepth: log2(index * (factor - 1) + 1) / log2(factor). -/
def calcDepth (factor index : Nat) : Nat :=
  log2 (index * (factor - 1) + 1) / log2 factor

/-- ChunkInfo::calcLevelIndex: (factor ^ depth - 1) / (factor - 1), the
index of the first node at the given depth. -/
def calcLevelIndex (dimensions depth : Nat) : Nat :=
  (binaryPow dimensions depth - 1) / ((1 <<< dimensions) - 1)

/-- ChunkInfo::pointsAtDepth: factor ^ depth, the node count of one level. -/
def pointsAtDepth (dimensions depth : Nat) : Nat := binaryPow dimensions depth

/-- ChunkInfo::logN: integer log base n, restricted to n = 4 or n = 8;
any other base throws a runtime error in the source, modelled as Except. -/
def logN (val n : Nat) : Except String Nat :=
  if n ≠ 4 ∧ n ≠ 8 then Except.error ("Invalid logN arg: " ++ toString n)
  else Except.ok (log2 val / log2 n)

/-- ChunkInfo::isPerfectLogN: whether (1 shifted left by logN(val,n) * log2 n)
equals val; propagates the invalid-base error of logN. -/
def isPerfectLogN (val n : Nat) : Except String Bool :=
  (logN val n).map (fun l => (1 <<< (l * log2 n)) == val)

/-- The Structure record: the member fields of entwine::Structure, in the
order of the C++ declaration.  Depth and index fields are Nat (the index
fields model the arbitrary-precision Id). -/
structure Structure where
  nullDepthBegin : Nat
  nullDepthEnd : Nat
  baseDepthBegin : Nat
  baseDepthEnd : Nat
  coldDepthBegin : Nat
  coldDepthEnd : Nat
  sparseDepthBegin : Nat
  sparseIndexBegin : Nat
  chunkPoints : Nat
  dynamicChunks : Bool
  dimensions : Nat
  factor : Nat
  numPointsHint : Nat
  subset : Nat × Nat
  nominalChunkDepth : Nat
  nominalChunkIndex : Nat
  nullIndexBegin : Nat
  nullIndexEnd : Nat
  baseIndexBegin : Nat
  baseIndexEnd : Nat
  coldIndexBegin : Nat
  coldIndexEnd : Nat
deriving DecidableEq

/-- Modelled from the spec (structure.hpp is not among the translated
sources): hasCold holds iff coldDepthEnd exceeds baseDepthEnd. -/
def hasCold (s : Structure) : Bool := decide (s.baseDepthEnd < s.coldDepthEnd)

/-- Modelled from the spec (structure.hpp is not among the translated
sources): sparse tiering is active iff a nonzero sparseDepthBegin was
derived from the point-count hint. -/
def hasSparse (s : Structure) : Bool := decide (0 < s.sparseDepthBegin)

/-- Structure::isSubset: the subset split count is nonzero. -/
def isSubset (s : Structure) : Bool := decide (s.subset.2 ≠ 0)

/-- Modelled from the spec (structure.hpp is not among the translated
sources): a structure is three-dimensional iff dimensions = 3 (octree). -/
def is3d (s : Structure) : Bool := decide (s.dimensions = 3)

/-- The ChunkInfo value: the fields computed by the ChunkInfo constructor. -/
structure ChunkInfo where
  index : Nat
  chunkId : Nat
  depth : Nat
  chunkOffset : Nat
  chunkPoints : Nat
  chunkNum : Nat
deriving DecidableEq

/-- The ChunkInfo constructor of structure.cpp: forward address
translation of a node index into chunk id, capacity, sequence number and
in-chunk offset.  The first branch is the fixed regime, the second the
adaptive (sparse) regime. -/
def chunkInfoOf (s : Structure) (index : Nat) : ChunkInfo :=
  let depth := calcDepth s.factor index
  let levelIndex := calcLevelIndex s.dimensions depth
  if s.dynamicChunks = false ∨ levelIndex ≤ s.sparseIndexBegin then
    let chunkNum := (index - s.coldIndexBegin) / s.chunkPoints
    { index := index
      depth := depth
      chunkPoints := s.chunkPoints
      chunkNum := chunkNum
      chunkOffset := (index - s.coldIndexBegin) % s.chunkPoints
      chunkId := s.coldIndexBegin + chunkNum * s.chunkPoints }
  else
    let sparseFirstSpan := pointsAtDepth s.dimensions s.sparseDepthBegin
    let chunksPerSparseDepth := sparseFirstSpan / s.chunkPoints
    let sparseDepthCount := depth - s.sparseDepthBegin
    let chunkPoints := s.chunkPoints * binaryPow s.dimensions sparseDepthCount
    let coldIndexSpan := s.sparseIndexBegin - s.coldIndexBegin
    let numColdChunks := coldIndexSpan / s.chunkPoints
    let prevLevelsChunkCount :=
      numColdChunks + chunksPerSparseDepth * sparseDepthCount
    let levelOffset := index - levelIndex
    { index := index
      depth := depth
      chunkPoints := chunkPoints
      chunkNum := prevLevelsChunkCount + levelOffset / chunkPoints
      chunkOffset := levelOffset % chunkPoints
      chunkId := levelIndex + (levelOffset / chunkPoints) * chunkPoints }

/-- Structure::loadIndexValues: validation and computation of the derived
fields, performed by every constructor.  Throwing paths are modelled as
Except.error with the exact source messages.  The advisory printed when
numPointsHint is absent is non-fatal and has no effect on the result. -/
def loadIndexValues (s : Structure) : Except String Structure :=
  if s.baseDepthEnd < 4 then Except.error "Base depth too small"
  else if s.chunkPoints = 0 ∧ hasCold s = true then
    Except.error "Points per chunk not specified, but a cold depth was given."
  else
    match
      (if hasCold s = true then isPerfectLogN s.chunkPoints s.dimensions
       else Except.ok true) with
    | Except.error e => Except.error e
    | Except.ok perfect =>
      if hasCold s = true ∧ perfect = false then
        Except.error
          "Invalid chunk specification - must be of the form 4^n for quadtree, or 8^n for octree"
      else
        match logN s.chunkPoints s.factor with
        | Except.error e => Except.error e
        | Except.ok nominalChunkDepth =>
          let s1 : Structure :=
            { s with
              nominalChunkDepth := nominalChunkDepth
              nominalChunkIndex :=
                calcLevelIndex s.dimensions nominalChunkDepth
              nullIndexBegin := 0
              nullIndexEnd := calcLevelIndex s.dimensions s.nullDepthEnd
              baseIndexBegin := calcLevelIndex s.dimensions s.nullDepthEnd
              baseIndexEnd := calcLevelIndex s.dimensions s.baseDepthEnd
              coldIndexBegin := calcLevelIndex s.dimensions s.baseDepthEnd
              coldIndexEnd :=
                if s.coldDepthEnd ≠ 0 then
                  calcLevelIndex s.dimensions s.coldDepthEnd
                else 0 }
          let s2 : Structure :=
            if s.numPointsHint ≠ 0 then
              let sdb :=
                max (log2 s.numPointsHint / log2 s.factor + 1) s.coldDepthBegin
              { s1 with
                sparseDepthBegin := sdb
                sparseIndexBegin := calcLevelIndex s.dimensions sdb }
            else s1
          if s.subset.2 ≠ 0 then
            if s.nullDepthEnd = 0 ∨ 4 ^ s.nullDepthEnd < s.subset.2 then
              Except.error "Invalid null depth for requested subset"
            else if ¬(s.subset.2 = 4 ∨ s.subset.2 = 16 ∨ s.subset.2 = 64) then
              Except.error "Invalid subset split"
            else if s.subset.2 ≤ s.subset.1 then
              Except.error "Invalid subset identifier"
            else if hasCold s = true ∧
                (pointsAtDepth s.dimensions s.coldDepthBegin / s.chunkPoints
                    < s.subset.2 ∨
                 pointsAtDepth s.dimensions s.coldDepthBegin / s.chunkPoints
                    % s.subset.2 ≠ 0) then
              Except.error "Invalid chunk size for this subset"
            else Except.ok s2
          else Except.ok s2

/-- The explicit-argument Structure constructor taking a cold depth:
initializer list (with its clamping of baseDepthEnd and coldDepthEnd)
followed by loadIndexValues. -/
def structureOf (nullDepth baseDepth coldDepth chunkPoints dimensions
    numPointsHint : Nat) (dynamicChunks : Bool) (subset : Nat × Nat) :
    Except String Structure :=
  loadIndexValues
    { nullDepthBegin := 0
      nullDepthEnd := nullDepth
      baseDepthBegin := nullDepth
      baseDepthEnd := max nullDepth baseDepth
      coldDepthBegin := max nullDepth baseDepth
      coldDepthEnd := max (max nullDepth baseDepth) coldDepth
      sparseDepthBegin := 0
      sparseIndexBegin := 0
      chunkPoints := chunkPoints
      dynamicChunks := dynamicChunks
      dimensions := dimensions
      factor := 1 <<< dimensions
      numPointsHint := numPointsHint
      subset := subset
      nominalChunkDepth := 0
      nominalChunkIndex := 0
      nullIndexBegin := 0
      nullIndexEnd := 0
      baseIndexBegin := 0
      baseIndexEnd := 0
      coldIndexBegin := 0
      coldIndexEnd := 0 }

/-- The explicit-argument Structure constructor without a cold depth:
coldDepthEnd is initialized to 0, the rest as in structureOf. -/
def structureOf2 (nullDepth baseDepth chunkPoints dimensions
    numPointsHint : Nat) (dynamicChunks : Bool) (subset : Nat × Nat) :
    Except String Structure :=
  loadIndexValues
    { nullDepthBegin := 0
      nullDepthEnd := nullDepth
      baseDepthBegin := nullDepth
      baseDepthEnd := max nullDepth baseDepth
      coldDepthBegin := max nullDepth baseDepth
      coldDepthEnd := 0
      sparseDepthBegin := 0
      sparseIndexBegin := 0
      chunkPoints := chunkPoints
      dynamicChunks := dynamicChunks
      dimensions := dimensions
      factor := 1 <<< dimensions
      numPointsHint := numPointsHint
      subset := subset
      nominalChunkDepth := 0
      nominalChunkIndex := 0
      nullIndexBegin := 0
      nullIndexEnd := 0
      baseIndexBegin := 0
      baseIndexEnd := 0
      coldIndexBegin := 0
      coldIndexEnd := 0 }

/-- The parsed fields of the configuration document consumed by the JSON
constructor of Structure. -/
structure JsonConfig where
  nullDepth : Nat
  baseDepth : Nat
  coldDepth : Nat
  chunkPoints : Nat
  dimensions : Nat
  numPointsHint : Nat
  dynamicChunks : Bool
  subset : Nat × Nat
deriving DecidableEq

/-- The configuration-document Structure constructor: unlike the
explicit-argument constructors, its initializer list performs no
clamping of baseDepthEnd or coldDepthEnd. -/
def structureOfJson (j : JsonConfig) : Except String Structure :=
  loadIndexValues
    { nullDepthBegin := 0
      nullDepthEnd := j.nullDepth
      baseDepthBegin := j.nullDepth
      baseDepthEnd := j.baseDepth
      coldDepthBegin := j.baseDepth
      coldDepthEnd := j.coldDepth
      sparseDepthBegin := 0
      sparseIndexBegin := 0
      chunkPoints := j.chunkPoints
      dynamicChunks := j.dynamicChunks
      dimensions := j.dimensions
      factor := 1 <<< j.dimensions
      numPointsHint := j.numPointsHint
      subset := j.subset
      nominalChunkDepth := 0
      nominalChunkIndex := 0
      nullIndexBegin := 0
      nullIndexEnd := 0
      baseIndexBegin := 0
      baseIndexEnd := 0
      coldIndexBegin := 0
      coldIndexEnd := 0 }

/-- Structure::numChunksAtDepth. -/
def numChunksAtDepth (s : Structure) (depth : Nat) : Nat :=
  if hasSparse s = false ∨ s.dynamicChunks = false ∨
      depth ≤ s.sparseDepthBegin then
    (calcLevelIndex s.dimensions (depth + 1) -
      calcLevelIndex s.dimensions depth) / s.chunkPoints
  else
    pointsAtDepth s.dimensions s.sparseDepthBegin / s.chunkPoints

/-- Structure::getInfoFromNum: inverse chunk enumeration.  The source
contains no throwing statement: when the structure has no cold tier the
chunk id simply remains 0 and the ChunkInfo of index 0 is returned. -/
def getInfoFromNum (s : Structure) (chunkNum : Nat) : ChunkInfo :=
  let chunkId :=
    if hasCold s = true then
      if hasSparse s = true ∧ s.dynamicChunks = true then
        let endFixed := calcLevelIndex s.dimensions (s.sparseDepthBegin + 1)
        let fixedSpan := endFixed - s.coldIndexBegin
        let fixedNum := fixedSpan / s.chunkPoints
        if chunkNum < fixedNum then
          s.coldIndexBegin + chunkNum * s.chunkPoints
        else
          let leftover := chunkNum - fixedNum
          let chunksPerSparseDepth := numChunksAtDepth s s.sparseDepthBegin
          let depth :=
            s.sparseDepthBegin + 1 + leftover / chunksPerSparseDepth
          let chunkNumInDepth := leftover % chunksPerSparseDepth
          let depthIndexBegin := calcLevelIndex s.dimensions depth
          let depthChunkSize :=
            pointsAtDepth s.dimensions depth / chunksPerSparseDepth
          depthIndexBegin + chunkNumInDepth * depthChunkSize
      else s.coldIndexBegin + chunkNum * s.chunkPoints
    else 0
  chunkInfoOf s chunkId

/-- Structure::makeWhole: resets the subset assignment to (0, 0).  In the
C++ source this is the one member function that writes to a field after
construction; it is modelled as a record update. -/
def makeWhole (s : Structure) : Structure := { s with subset := (0, 0) }

/-- A planar bounding region, modelled over the rationals (the source
uses doubles; only exact halving is exercised here). -/
structure BBox where
  minX : Rat
  minY : Rat
  maxX : Rat
  maxY : Rat

/-- Modelled from the spec: one quadrant-descent step of the Climber
(climber.hpp is not among the translated sources).  Code 0 narrows to the
minimal quadrant and code 3 to the maximal quadrant, as fixed by the
concrete subset scenario of the spec; codes 1 and 2 take the two mixed
quadrants. -/
def quadrantStep (code : Nat) (b : BBox) : BBox :=
  let mx := (b.minX + b.maxX) / 2
  let my := (b.minY + b.maxY) / 2
  if code = 0 then { minX := b.minX, minY := b.minY, maxX := mx, maxY := my }
  else if code = 1 then { minX := mx, minY := b.minY, maxX := b.maxX, maxY := my }
  else if code = 2 then { minX := b.minX, minY := my, maxX := mx, maxY := b.maxY }
  else { minX := mx, minY := my, maxX := b.maxX, maxY := b.maxY }

/-- The quadrant descent loop of Structure::subsetBBox: extracts two bits
of the subset id per level and narrows the region. -/
def descendClimber (s : Structure) (times : Nat) (b : BBox) : BBox :=
  (List.range times).foldl
    (fun acc i => quadrantStep ((s.subset.1 >>> (i * 2)) % 4) acc) b

/-- Structure::subsetBBox: throws on a three-dimensional structure before
anything else, then maps the split count to a descent count, throwing on
an invalid split; the final zero-times check mirrors the source. -/
def subsetBBox (s : Structure) (full : BBox) : Except String BBox :=
  if is3d s = true then Except.error "Can't currently split octree"
  else
    let times :=
      if s.subset.2 = 4 then some 1
      else if s.subset.2 = 16 then some 2
      else if s.subset.2 = 64 then some 3
      else none
    match times with
    | none => Except.error "Invalid subset split"
    | some t =>
      if t ≠ 0 then Except.ok (descendClimber s t full)
      else Except.error "Invalid magnification subset"

/-- entwine::Reprojection, modelled from the spec (reprojection.hpp is
not among the translated sources): a pair of spatial-reference strings.
The input reference accessor is named in() in the source; in is reserved
in Lean, hence inSrs. -/
structure Reprojection where
  inSrs : String
  outSrs : String
deriving DecidableEq

/-- Model of the configured pdal reprojection filter stage: the pair of
in_srs / out_srs options set on it.  pdal is an external collaborator;
only the options chosen by executor.cpp are modelled. -/
structure ReprojectionFilter where
  inOption : String
  outOption : String
deriving DecidableEq

/-- The anonymous-namespace srsFoundOrDefault of executor.cpp: if the
spatial reference found in the source file is empty, keep the given
reprojection; otherwise substitute the found reference (its WKT form,
modelled as the string itself) for the input side. -/
def srsFoundOrDefault (found : String) (given : Reprojection) : Reprojection :=
  if found = "" then given
  else { inSrs := found, outSrs := given.outSrs }

/-- Executor::createReprojectionFilter: throws if the input spatial
reference is empty, before any filter stage is created; otherwise builds
the filter with the reprojection pair as its options. -/
def createReprojectionFilter (reproj : Reprojection) :
    Except String ReprojectionFilter :=
  if reproj.inSrs = "" then
    Except.error "No default SRS supplied, and none inferred"
  else
    Except.ok { inOption := reproj.inSrs, outOption := reproj.outSrs }

/-
  Concrete Structure records used by witnesses and counterexamples.  Each
  record carries the derived fields that loadIndexValues computes for the
  configuration named in its comment (field order is the declaration
  order of Structure).
-/

/-- Quadtree structure, cold depths [4, 7), chunk capacity 16, sparse
tiering from depth 5 (hint 600), dynamic chunks on: configuration
(nullDepth 0, baseDepth 4, coldDepth 7, chunkPoints 16, dimensions 2,
numPointsHint 600, dynamicChunks true, no subset). -/
def sC2 : Structure :=
  ⟨0, 0, 0, 4, 4, 7, 5, 341, 16, true, 2, 4, 600, (0, 0),
   2, 5, 0, 0, 0, 85, 85, 5461⟩

/-- Quadtree structure with a cold tier, dynamic chunks on but no
point-count hint, so sparse tiering is disabled: configuration
(nullDepth 0, baseDepth 4, coldDepth 6, chunkPoints 16, dimensions 2,
numPointsHint 0, dynamicChunks true, no subset). -/
def sC2bad : Structure :=
  ⟨0, 0, 0, 4, 4, 6, 0, 0, 16, true, 2, 4, 0, (0, 0),
   2, 5, 0, 0, 0, 85, 85, 1365⟩

/-- Same configuration as sC2; separate record for the offset-bound
witness. -/
def sC3 : Structure :=
  ⟨0, 0, 0, 4, 4, 7, 5, 341, 16, true, 2, 4, 600, (0, 0),
   2, 5, 0, 0, 0, 85, 85, 5461⟩

/-- The structure produced by structureOf 0 8 0 64 3 1000000 true (0,0):
octree, baseDepth 8, no cold tier, hint one million. -/
def c4s : Structure :=
  ⟨0, 0, 0, 8, 8, 8, 8, 2396745, 64, true, 3, 8, 1000000, (0, 0),
   2, 9, 0, 0, 0, 2396745, 2396745, 2396745⟩

/-- Quadtree structure without a cold tier (coldDepthEnd 0):
configuration (nullDepth 0, baseDepth 4, chunkPoints 16, dimensions 2,
numPointsHint 0, dynamicChunks false, no subset). -/
def sNC : Structure :=
  ⟨0, 0, 0, 4, 4, 0, 0, 0, 16, false, 2, 4, 0, (0, 0),
   2, 5, 0, 0, 0, 85, 85, 0⟩

/-- The structure produced by structureOf 3 5 0 16 2 9 false (0,0). -/
def c7s : Structure :=
  ⟨0, 3, 3, 5, 5, 5, 5, 341, 16, false, 2, 4, 9, (0, 0),
   2, 5, 0, 21, 21, 341, 341, 341⟩

/-- The structure produced by structureOf2 1 4 16 3 1 false (0,4): an
octree carrying a subset assignment, successfully constructed. -/
def sC8 : Structure :=
  ⟨0, 1, 1, 4, 4, 0, 4, 585, 16, false, 3, 8, 1, (0, 4),
   1, 1, 0, 1, 1, 585, 585, 0⟩

/-- A full bounding region for the subset witness. -/
def bFull : BBox := ⟨0, 0, 100, 100⟩

/-- A structure holding a subset assignment (1, 4), for the makeWhole
counterexample. -/
def sMW : Structure :=
  ⟨0, 0, 0, 4, 4, 0, 0, 0, 16, false, 2, 4, 0, (1, 4),
   2, 5, 0, 0, 0, 85, 85, 0⟩

/-
  Helper lemmas: exact bounds of the floor logarithm, the level-index
  algebra, and the characterization of calcDepth on level ranges.
-/

theorem log2Fuel_bounds : ∀ fuel n : Nat, 1 ≤ n → n ≤ fuel →
    2 ^ log2Fuel fuel n ≤ n ∧ n < 2 ^ (log2Fuel fuel n + 1) := by
  intro fuel
  induction fuel with
  | zero => intro n h1 h2; omega
  | succ f ih =>
    intro n h1 h2
    by_cases h : 2 ≤ n
    · have hm1 : 1 ≤ n / 2 := (Nat.one_le_div_iff (by norm_num)).mpr h
      have hm2 : n / 2 ≤ f := by
        have := Nat.div_lt_self (by omega : 0 < n) (by norm_num : 1 < 2)
        omega
      obtain ⟨ihl, ihr⟩ := ih (n / 2) hm1 hm2
      have hval : log2Fuel (f + 1) n = log2Fuel f (n / 2) + 1 := by
        simp [log2Fuel, h]
      rw [hval]
      constructor
      · calc 2 ^ (log2Fuel f (n / 2) + 1)
            = 2 ^ log2Fuel f (n / 2) * 2 := by rw [Nat.pow_succ]
          _ ≤ n / 2 * 2 := Nat.mul_le_mul_right 2 ihl
          _ ≤ n := Nat.div_mul_le_self n 2
      · have hmod := Nat.div_add_mod n 2
        have hm : n % 2 < 2 := Nat.mod_lt n (by norm_num)
        have hp : 2 ^ (log2Fuel f (n / 2) + 1 + 1) =
            2 ^ (log2Fuel f (n / 2) + 1) * 2 := by rw [Nat.pow_succ]
        omega
    · have hn1 : n = 1 := by omega
      subst hn1
      have hval : log2Fuel (f + 1) 1 = 0 := by simp [log2Fuel]
      rw [hval]
      omega

theorem log2_lower {n : Nat} (h : 1 ≤ n) : 2 ^ log2 n ≤ n :=
  (log2Fuel_bounds n n h (Nat.le_refl n)).1

theorem log2_upper {n : Nat} (h : 1 ≤ n) : n < 2 ^ (log2 n + 1) :=
  (log2Fuel_bounds n n h (Nat.le_refl n)).2

theorem log2_eq_of_bounds {n k : Nat} (h1 : 2 ^ k ≤ n) (h2 : n < 2 ^ (k + 1)) :
    log2 n = k := by
  have hn : 1 ≤ n := le_trans (Nat.one_le_pow k 2 (by norm_num)) h1
  have bl := log2_lower hn
  have bu := log2_upper hn
  rcases Nat.lt_trichotomy (log2 n) k with hlt | heq | hgt
  · have : 2 ^ (log2 n + 1) ≤ 2 ^ k :=
      Nat.pow_le_pow_right (by norm_num) (by omega)
    omega
  · exact heq
  · have : 2 ^ (k + 1) ≤ 2 ^ log2 n :=
      Nat.pow_le_pow_right (by norm_num) (by omega)
    omega

theorem log2_two_pow (k : Nat) : log2 (2 ^ k) = k := by
  apply log2_eq_of_bounds (Nat.le_refl _)
  have h1 : 2 ^ (k + 1) = 2 ^ k * 2 := by rw [Nat.pow_succ]
  have h2 : 1 ≤ 2 ^ k := Nat.one_le_pow k 2 (by norm_num)
  omega

theorem le_log2_of_pow_le {n k : Nat} (hn : 1 ≤ n) (h : 2 ^ k ≤ n) :
    k ≤ log2 n := by
  by_contra hc
  push_neg at hc
  have h1 := log2_upper hn
  have h2 : 2 ^ (log2 n + 1) ≤ 2 ^ k :=
    Nat.pow_le_pow_right (by norm_num) (by omega)
  omega

theorem log2_lt_of_lt_pow {n k : Nat} (hn : 1 ≤ n) (h : n < 2 ^ k) :
    log2 n < k := by
  by_contra hc
  push_neg at hc
  have h2 : 2 ^ k ≤ 2 ^ log2 n := Nat.pow_le_pow_right (by norm_num) hc
  have h1 := log2_lower hn
  omega

theorem shiftLeft_one (k : Nat) : (1 <<< k) = 2 ^ k := by
  simp [Nat.shiftLeft_eq]

theorem binaryPow_eq (d e : Nat) : binaryPow d e = 2 ^ (e * d) := by
  simp [binaryPow, Nat.shiftLeft_eq]

theorem pointsAtDepth_eq (d e : Nat) : pointsAtDepth d e = 2 ^ (e * d) :=
  binaryPow_eq d e

theorem calcLevelIndex_eq (d t : Nat) :
    calcLevelIndex d t = (2 ^ (t * d) - 1) / (2 ^ d - 1) := by
  simp [calcLevelIndex, binaryPow, Nat.shiftLeft_eq]

theorem sub_one_dvd_pow_sub_one (d t : Nat) :
    (2 ^ d - 1) ∣ (2 ^ (t * d) - 1) := by
  rw [mul_comm t d, pow_mul]
  simpa using nat_sub_dvd_pow_sub_pow (2 ^ d) 1 t

theorem calcLevelIndex_mul (d t : Nat) :
    calcLevelIndex d t * (2 ^ d - 1) = 2 ^ (t * d) - 1 := by
  rw [calcLevelIndex_eq]
  exact Nat.div_mul_cancel (sub_one_dvd_pow_sub_one d t)

theorem calcLevelIndex_spec (d t : Nat) :
    calcLevelIndex d t * (2 ^ d - 1) + 1 = 2 ^ (t * d) := by
  have h := calcLevelIndex_mul d t
  have h1 : 1 ≤ 2 ^ (t * d) := Nat.one_le_pow _ 2 (by norm_num)
  omega

theorem calcLevelIndex_succ (d t : Nat) (hd : 1 ≤ d) :
    calcLevelIndex d (t + 1) = calcLevelIndex d t + 2 ^ (t * d) := by
  have hM : 1 ≤ 2 ^ d - 1 := by
    have : (2 : Nat) ^ 1 ≤ 2 ^ d := Nat.pow_le_pow_right (by norm_num) hd
    simp at this
    omega
  apply Nat.eq_of_mul_eq_mul_right (show 0 < 2 ^ d - 1 by omega)
  rw [Nat.add_mul, calcLevelIndex_mul, calcLevelIndex_mul]
  have hpow : 2 ^ ((t + 1) * d) = 2 ^ (t * d) * 2 ^ d := by
    rw [← pow_add]
    congr 1
    ring
  have hx : 2 ^ (t * d) * (2 ^ d - 1) + 2 ^ (t * d) = 2 ^ (t * d) * 2 ^ d := by
    rw [← Nat.mul_succ]
    congr 1
    omega
  have h1 : 1 ≤ 2 ^ (t * d) := Nat.one_le_pow _ 2 (by norm_num)
  omega

theorem calcLevelIndex_lt_succ (d t : Nat) (hd : 1 ≤ d) :
    calcLevelIndex d t < calcLevelIndex d (t + 1) := by
  rw [calcLevelIndex_succ d t hd]
  have h1 : 1 ≤ 2 ^ (t * d) := Nat.one_le_pow _ 2 (by norm_num)
  omega

theorem calcLevelIndex_mono (d : Nat) (hd : 1 ≤ d) {t u : Nat} (h : t ≤ u) :
    calcLevelIndex d t ≤ calcLevelIndex d u := by
  induction h with
  | refl => exact Nat.le_refl _
  | step h ih => exact le_trans ih (le_of_lt (calcLevelIndex_lt_succ d _ hd))

theorem calcLevelIndex_strict (d : Nat) (hd : 1 ≤ d) {t u : Nat} (h : t < u) :
    calcLevelIndex d t < calcLevelIndex d u :=
  lt_of_lt_of_le (calcLevelIndex_lt_succ d t hd) (calcLevelIndex_mono d hd h)

theorem calcDepth_expand (d i : Nat) :
    calcDepth (2 ^ d) i = log2 (i * (2 ^ d - 1) + 1) / d := by
  rw [calcDepth, log2_two_pow]

theorem calcDepth_le_of_lt (d : Nat) (hd : 1 ≤ d) {t i : Nat}
    (h : i < calcLevelIndex d (t + 1)) : calcDepth (2 ^ d) i ≤ t := by
  rw [calcDepth_expand d i]
  have hm : i * (2 ^ d - 1) + 1 < 2 ^ ((t + 1) * d) := by
    have h2 : i + 1 ≤ calcLevelIndex d (t + 1) := h
    have h3 : (i + 1) * (2 ^ d - 1) ≤ calcLevelIndex d (t + 1) * (2 ^ d - 1) :=
      Nat.mul_le_mul_right _ h2
    rw [calcLevelIndex_mul] at h3
    have h4 : (i + 1) * (2 ^ d - 1) = i * (2 ^ d - 1) + (2 ^ d - 1) := by ring
    have h5 : 1 ≤ 2 ^ ((t + 1) * d) := Nat.one_le_pow _ 2 (by norm_num)
    have hM : 1 ≤ 2 ^ d - 1 := by
      have : (2 : Nat) ^ 1 ≤ 2 ^ d := Nat.pow_le_pow_right (by norm_num) hd
      simp at this
      omega
    omega
  have hlog : log2 (i * (2 ^ d - 1) + 1) < (t + 1) * d :=
    log2_lt_of_lt_pow (by omega) hm
  have hdiv : log2 (i * (2 ^ d - 1) + 1) / d < t + 1 :=
    (Nat.div_lt_iff_lt_mul (by omega)).mpr hlog
  omega

theorem calcDepth_range (d : Nat) (hd : 1 ≤ d) {t i : Nat}
    (h1 : calcLevelIndex d t ≤ i) (h2 : i < calcLevelIndex d (t + 1)) :
    calcDepth (2 ^ d) i = t := by
  have hle := calcDepth_le_of_lt d hd h2
  rw [calcDepth_expand d i] at hle ⊢
  have hlow : 2 ^ (t * d) ≤ i * (2 ^ d - 1) + 1 := by
    have h3 : calcLevelIndex d t * (2 ^ d - 1) ≤ i * (2 ^ d - 1) :=
      Nat.mul_le_mul_right _ h1
    have h4 := calcLevelIndex_spec d t
    omega
  have htd : t * d ≤ log2 (i * (2 ^ d - 1) + 1) :=
    le_log2_of_pow_le (by omega) hlow
  have hge : t ≤ log2 (i * (2 ^ d - 1) + 1) / d :=
    (Nat.le_div_iff_mul_le (by omega)).mpr htd
  omega

theorem chunkPoints_dvd_levelIndex_sub (d : Nat) (hd : 1 ≤ d) {C bd : Nat}
    (hC : C ∣ 2 ^ (bd * d)) :
    ∀ {t : Nat}, bd ≤ t → C ∣ (calcLevelIndex d t - calcLevelIndex d bd) := by
  intro t ht
  induction t, ht using Nat.le_induction with
  | base => simp
  | succ u hu ih =>
    have hs := calcLevelIndex_succ d u hd
    have hmono := calcLevelIndex_mono d hd hu
    have heq : calcLevelIndex d (u + 1) - calcLevelIndex d bd =
        (calcLevelIndex d u - calcLevelIndex d bd) + 2 ^ (u * d) := by
      rw [hs]
      exact Nat.sub_add_comm hmono
    rw [heq]
    exact Nat.dvd_add ih
      (hC.trans (pow_dvd_pow 2 (Nat.mul_le_mul_right d hu)))

theorem chunkInfoOf_fixed (s : Structure) (i : Nat)
    (h : s.dynamicChunks = false ∨
      calcLevelIndex s.dimensions (calcDepth s.factor i) ≤ s.sparseIndexBegin) :
    chunkInfoOf s i =
      { index := i
        depth := calcDepth s.factor i
        chunkPoints := s.chunkPoints
        chunkNum := (i - s.coldIndexBegin) / s.chunkPoints
        chunkOffset := (i - s.coldIndexBegin) % s.chunkPoints
        chunkId := s.coldIndexBegin +
          ((i - s.coldIndexBegin) / s.chunkPoints) * s.chunkPoints } := by
  simp only [chunkInfoOf]
  rw [if_pos h]

theorem chunkInfoOf_sparse (s : Structure) (i : Nat)
    (h : ¬(s.dynamicChunks = false ∨
      calcLevelIndex s.dimensions (calcDepth s.factor i) ≤ s.sparseIndexBegin)) :
    chunkInfoOf s i =
      { index := i
        depth := calcDepth s.factor i
        chunkPoints := s.chunkPoints *
          binaryPow s.dimensions (calcDepth s.factor i - s.sparseDepthBegin)
        chunkNum := (s.sparseIndexBegin - s.coldIndexBegin) / s.chunkPoints +
          (pointsAtDepth s.dimensions s.sparseDepthBegin / s.chunkPoints) *
            (calcDepth s.factor i - s.sparseDepthBegin) +
          (i - calcLevelIndex s.dimensions (calcDepth s.factor i)) /
            (s.chunkPoints *
              binaryPow s.dimensions (calcDepth s.factor i - s.sparseDepthBegin))
        chunkOffset :=
          (i - calcLevelIndex s.dimensions (calcDepth s.factor i)) %
            (s.chunkPoints *
              binaryPow s.dimensions (calcDepth s.factor i - s.sparseDepthBegin))
        chunkId := calcLevelIndex s.dimensions (calcDepth s.factor i) +
          ((i - calcLevelIndex s.dimensions (calcDepth s.factor i)) /
            (s.chunkPoints *
              binaryPow s.dimensions (calcDepth s.factor i - s.sparseDepthBegin))) *
            (s.chunkPoints *
              binaryPow s.dimensions (calcDepth s.factor i - s.sparseDepthBegin)) } := by
  simp only [chunkInfoOf]
  rw [if_neg h]

/-- Claim C1: for dimensions 2 or 3 (branching factor F = 2 ^ dimensions)
and every depth, the level-index difference of consecutive depths equals
the point count of that depth, and calcDepth evaluated exactly at a level
boundary returns that depth. -/
theorem levelIndex_pointsAtDepth_calcDepth_consistent
    (dims : Nat) (hdims : dims = 2 ∨ dims = 3) (depth : Nat) :
    calcLevelIndex dims (depth + 1) - calcLevelIndex dims depth =
      pointsAtDepth dims depth ∧
    calcDepth (1 <<< dims) (calcLevelIndex dims depth) = depth := by
  have hd : 1 ≤ dims := by rcases hdims with rfl | rfl <;> omega
  constructor
  · rw [calcLevelIndex_succ dims depth hd, pointsAtDepth_eq]
    have h1 : 1 ≤ 2 ^ (depth * dims) := Nat.one_le_pow _ 2 (by norm_num)
    omega
  · rw [shiftLeft_one]
    exact calcDepth_range dims hd (Nat.le_refl _)
      (calcLevelIndex_lt_succ dims depth hd)

/-- Witness for C1 at dimensions 2, depth 5. -/
theorem levelIndex_pointsAtDepth_calcDepth_consistent_witness :
    ((2 : Nat) = 2 ∨ (2 : Nat) = 3) ∧
    (calcLevelIndex 2 6 - calcLevelIndex 2 5 = pointsAtDepth 2 5 ∧
      calcDepth (1 <<< 2) (calcLevelIndex 2 5) = 5) :=
  ⟨Or.inl rfl,
    levelIndex_pointsAtDepth_calcDepth_consistent 2 (Or.inl rfl) 5⟩

/-- Claim C3: for every Structure with a nonzero chunk capacity and every
node index at or beyond coldIndexBegin, the ChunkInfo constructed for
that index has its in-chunk offset strictly below its chunk capacity, in
the fixed regime and in the adaptive regime alike. -/
theorem chunkOffset_lt_chunkPoints (s : Structure) (i : Nat)
    (hC : 0 < s.chunkPoints) (hi : s.coldIndexBegin ≤ i) :
    (chunkInfoOf s i).chunkOffset < (chunkInfoOf s i).chunkPoints := by
  by_cases h : s.dynamicChunks = false ∨
      calcLevelIndex s.dimensions (calcDepth s.factor i) ≤ s.sparseIndexBegin
  · rw [chunkInfoOf_fixed s i h]
    exact Nat.mod_lt _ hC
  · rw [chunkInfoOf_sparse s i h]
    have hb : 0 < binaryPow s.dimensions
        (calcDepth s.factor i - s.sparseDepthBegin) := by
      rw [binaryPow_eq]
      exact Nat.pos_pow_of_pos _ (by norm_num)
    exact Nat.mod_lt _ (Nat.mul_pos hC hb)

/-- Witness for C3: the structure sC3 at node index 2650. -/
theorem chunkOffset_lt_chunkPoints_witness :
    0 < sC3.chunkPoints ∧ sC3.coldIndexBegin ≤ 2650 ∧
    (chunkInfoOf sC3 2650).chunkOffset < (chunkInfoOf sC3 2650).chunkPoints :=
  ⟨by decide, by decide,
    chunkOffset_lt_chunkPoints sC3 2650 (by decide) (by decide)⟩

/-- Claim C5 (amended): isPerfectLogN(64,4) returns true,
isPerfectLogN(64,8) returns TRUE as well (64 = 8 * 8, so 64 is a perfect
power of 8; the claim expected false), isPerfectLogN(100,4) returns
false, and Structure construction with chunkPoints 100, dimensions 2 and
a cold depth above the base depth fails with an error. -/
theorem isPerfectLogN_values_and_rejection :
    isPerfectLogN 64 4 = Except.ok true ∧
    isPerfectLogN 64 8 = Except.ok true ∧
    isPerfectLogN 100 4 = Except.ok false ∧
    (structureOf 0 6 8 100 2 1 false (0, 0)).toOption = none := by decide

/-- Counterexample to C5 as stated: isPerfectLogN(64,8) evaluates to
true, while the claim asserts it returns false. -/
theorem isPerfectLogN_64_8_is_true :
    isPerfectLogN 64 8 = Except.ok true := by decide

/-- Claim C6 (amended): inverse chunk enumeration on a Structure without
a cold tier does not fail; the source contains no throw, the chunk id
remains 0, and the ChunkInfo of index 0 is returned for every chunk
sequence number. -/
theorem getInfoFromNum_noCold (s : Structure) (h : hasCold s = false)
    (n : Nat) : getInfoFromNum s n = chunkInfoOf s 0 := by
  simp only [getInfoFromNum]
  rw [if_neg (by simp [h])]

/-- Witness for C6: the cold-less structure sNC at sequence number 7. -/
theorem getInfoFromNum_noCold_witness :
    hasCold sNC = false ∧ getInfoFromNum sNC 7 = chunkInfoOf sNC 0 :=
  ⟨by decide, getInfoFromNum_noCold sNC (by decide) 7⟩

/-- Counterexample to C6 as stated: on the cold-less structure sNC,
getInfoFromNum 5 returns a well-defined ChunkInfo (the one of node index
0, whose chunk id evaluates to 85) instead of failing with an
unsupported-configuration error. -/
theorem getInfoFromNum_noCold_returns_value :
    hasCold sNC = false ∧ getInfoFromNum sNC 5 = chunkInfoOf sNC 0 ∧
    (chunkInfoOf sNC 0).chunkId = 85 := by decide

/-- Claim C8 (amended): a subset request on a three-dimensional Structure
is not rejected at construction time; construction succeeds (concretely
for nullDepth 1, baseDepth 4, chunkPoints 16, dimensions 3, hint 1,
subset (0,4)) and the rejection is deferred to the subset-region query,
where subsetBBox fails with the cannot-split-octree error. -/
theorem octree_subset_rejected_at_query :
    structureOf2 1 4 16 3 1 false (0, 4) = Except.ok sC8 ∧
    ∀ (s : Structure) (b : BBox), is3d s = true →
      subsetBBox s b = Except.error "Can't currently split octree" := by
  constructor
  · decide
  · intro s b h
    simp [subsetBBox, h]

/-- Witness for C8: the octree structure sC8 on the unit region. -/
theorem octree_subset_rejected_at_query_witness :
    is3d sC8 = true ∧
    subsetBBox sC8 bFull = Except.error "Can't currently split octree" :=
  ⟨by decide, octree_subset_rejected_at_query.2 sC8 bFull (by decide)⟩

/-- Counterexample to C8 as stated: constructing an octree Structure with
a subset request succeeds instead of aborting with a configuration
error. -/
theorem octree_subset_construction_succeeds :
    structureOf2 1 4 16 3 1 false (0, 4) = Except.ok sC8 ∧
    is3d sC8 = true ∧ isSubset sC8 = true := by decide

/-- Claim C9 (amended): after construction the only mutating operation of
the public interface is makeWhole, which resets the subset assignment to
(0,0) and leaves every other field unchanged; the addressing queries are
deterministic functions of the structure and are unaffected by it. -/
theorem makeWhole_only_resets_subset (s : Structure) :
    (makeWhole s).subset = (0, 0) ∧ isSubset (makeWhole s) = false ∧
    (makeWhole s).nullDepthEnd = s.nullDepthEnd ∧
    (makeWhole s).baseDepthEnd = s.baseDepthEnd ∧
    (makeWhole s).coldDepthEnd = s.coldDepthEnd ∧
    (makeWhole s).sparseDepthBegin = s.sparseDepthBegin ∧
    (makeWhole s).sparseIndexBegin = s.sparseIndexBegin ∧
    (makeWhole s).chunkPoints = s.chunkPoints ∧
    (makeWhole s).dynamicChunks = s.dynamicChunks ∧
    (makeWhole s).dimensions = s.dimensions ∧
    (makeWhole s).factor = s.factor ∧
    (makeWhole s).numPointsHint = s.numPointsHint ∧
    (makeWhole s).coldIndexBegin = s.coldIndexBegin ∧
    (∀ i, chunkInfoOf (makeWhole s) i = chunkInfoOf s i) ∧
    (∀ n, getInfoFromNum (makeWhole s) n = getInfoFromNum s n) ∧
    (∀ depth, numChunksAtDepth (makeWhole s) depth =
      numChunksAtDepth s depth) := by
  refine ⟨rfl, rfl, rfl, rfl, rfl, rfl, rfl, rfl, rfl, rfl, rfl, rfl, rfl,
    fun i => rfl, fun n => rfl, fun depth => rfl⟩

/-- Counterexample to C9 as stated: makeWhole modifies the fields of a
Structure holding a subset assignment, so the public interface is not
mutation-free. -/
theorem makeWhole_mutates_subset : makeWhole sMW ≠ sMW := by decide

/-- Claim C10: with an empty input spatial-reference string,
createReprojectionFilter fails with the no-default-SRS error and no
filter stage is produced; and a nonempty spatial reference found in the
source file is substituted for the configured input SRS by
srsFoundOrDefault before the filter is built. -/
theorem reprojection_srs_handling :
    (∀ r : Reprojection, r.inSrs = "" →
      createReprojectionFilter r =
        Except.error "No default SRS supplied, and none inferred") ∧
    (∀ (found : String) (given : Reprojection), found ≠ "" →
      srsFoundOrDefault found given =
        { inSrs := found, outSrs := given.outSrs }) := by
  constructor
  · intro r h
    simp [createReprojectionFilter, h]
  · intro found given h
    simp [srsFoundOrDefault, h]

/-- Witness for C10: an empty configured input SRS, and a source file
carrying its own spatial reference. -/
theorem reprojection_srs_handling_witness :
    createReprojectionFilter (Reprojection.mk "" "EPSG:3857") =
      Except.error "No default SRS supplied, and none inferred" ∧
    srsFoundOrDefault "WKT-FROM-SOURCE"
        (Reprojection.mk "EPSG:4326" "EPSG:3857") =
      Reprojection.mk "WKT-FROM-SOURCE" "EPSG:3857" :=
  ⟨reprojection_srs_handling.1 (Reprojection.mk "" "EPSG:3857") rfl,
   reprojection_srs_handling.2 "WKT-FROM-SOURCE"
     (Reprojection.mk "EPSG:4326" "EPSG:3857") (by decide)⟩

theorem logN_ok_inv {v n l : Nat} (h : logN v n = Except.ok l) :
    (n = 4 ∨ n = 8) ∧ l = log2 v / log2 n := by
  by_cases hc : n ≠ 4 ∧ n ≠ 8
  · rw [logN, if_pos hc] at h
    simp at h
  · rw [logN, if_neg hc] at h
    have h2 := Except.ok.inj h
    constructor
    · omega
    · omega

set_option maxHeartbeats 1600000 in
theorem loadIndexValues_ok_facts {s0 s : Structure}
    (h : loadIndexValues s0 = Except.ok s) :
    (s0.factor = 4 ∨ s0.factor = 8) ∧
    s.nullDepthEnd = s0.nullDepthEnd ∧
    s.baseDepthEnd = s0.baseDepthEnd ∧
    s.coldDepthBegin = s0.coldDepthBegin ∧
    s.coldDepthEnd = s0.coldDepthEnd ∧
    s.chunkPoints = s0.chunkPoints ∧
    s.dynamicChunks = s0.dynamicChunks ∧
    s.dimensions = s0.dimensions ∧
    s.factor = s0.factor ∧
    s.numPointsHint = s0.numPointsHint ∧
    s.subset = s0.subset ∧
    s.coldIndexBegin = calcLevelIndex s0.dimensions s0.baseDepthEnd ∧
    (s0.numPointsHint ≠ 0 →
      s.sparseDepthBegin =
        max (log2 s0.numPointsHint / log2 s0.factor + 1) s0.coldDepthBegin ∧
      s.sparseIndexBegin = calcLevelIndex s0.dimensions s.sparseDepthBegin) ∧
    (s0.numPointsHint = 0 →
      s.sparseDepthBegin = s0.sparseDepthBegin ∧
      s.sparseIndexBegin = s0.sparseIndexBegin) := by
  simp only [loadIndexValues] at h
  split at h
  · simp at h
  split at h
  · simp at h
  split at h
  · simp at h
  rename_i perfect heqPerfect
  split at h
  · simp at h
  split at h
  · simp at h
  rename_i ncd heqLogN
  have hfac : s0.factor = 4 ∨ s0.factor = 8 := (logN_ok_inv heqLogN).1
  split at h
  · split at h
    · simp at h
    split at h
    · simp at h
    split at h
    · simp at h
    split at h
    · simp at h
    have hinj := Except.ok.inj h
    subst hinj
    by_cases hint : s0.numPointsHint ≠ 0
    · rw [if_pos hint]
      exact ⟨hfac, rfl, rfl, rfl, rfl, rfl, rfl, rfl, rfl, rfl, rfl, rfl,
        fun _ => ⟨rfl, rfl⟩, fun h0 => absurd h0 hint⟩
    · rw [if_neg hint]
      exact ⟨hfac, rfl, rfl, rfl, rfl, rfl, rfl, rfl, rfl, rfl, rfl, rfl,
        fun hx => absurd hx hint, fun _ => ⟨rfl, rfl⟩⟩
  · have hinj := Except.ok.inj h
    subst hinj
    by_cases hint : s0.numPointsHint ≠ 0
    · rw [if_pos hint]
      exact ⟨hfac, rfl, rfl, rfl, rfl, rfl, rfl, rfl, rfl, rfl, rfl, rfl,
        fun _ => ⟨rfl, rfl⟩, fun h0 => absurd h0 hint⟩
    · rw [if_neg hint]
      exact ⟨hfac, rfl, rfl, rfl, rfl, rfl, rfl, rfl, rfl, rfl, rfl, rfl,
        fun hx => absurd hx hint, fun _ => ⟨rfl, rfl⟩⟩

/-- Claim C7 (amended): the explicit-argument constructors clamp each
tier boundary to at least the previous boundary, so a structure they
produce satisfies nullDepthEnd ≤ baseDepthEnd and (for the variant
taking a cold depth) baseDepthEnd ≤ coldDepthEnd, while the variant
without a cold depth produces no cold tier at all; the
configuration-document constructor performs no clamping, and the
ordering can fail for it. -/
theorem explicit_ctor_clamps_depths :
    (∀ (nD bD cD C dims hint : Nat) (dyn : Bool) (sub : Nat × Nat)
      (s : Structure),
      structureOf nD bD cD C dims hint dyn sub = Except.ok s →
      s.nullDepthEnd ≤ s.baseDepthEnd ∧ s.baseDepthEnd ≤ s.coldDepthEnd ∧
      s.coldDepthBegin = s.baseDepthEnd) ∧
    (∀ (nD bD C dims hint : Nat) (dyn : Bool) (sub : Nat × Nat)
      (s : Structure),
      structureOf2 nD bD C dims hint dyn sub = Except.ok s →
      s.nullDepthEnd ≤ s.baseDepthEnd ∧ hasCold s = false ∧
      s.coldDepthBegin = s.baseDepthEnd) := by
  constructor
  · intro nD bD cD C dims hint dyn sub s h
    obtain ⟨_, h2, h3, h4, h5, _⟩ := loadIndexValues_ok_facts h
    have h2n : s.nullDepthEnd = nD := h2
    have h3n : s.baseDepthEnd = max nD bD := h3
    have h4n : s.coldDepthBegin = max nD bD := h4
    have h5n : s.coldDepthEnd = max (max nD bD) cD := h5
    refine ⟨?_, ?_, ?_⟩
    · rw [h2n, h3n]
      exact Nat.le_max_left nD bD
    · rw [h3n, h5n]
      exact Nat.le_max_left _ _
    · rw [h4n, h3n]
  · intro nD bD C dims hint dyn sub s h
    obtain ⟨_, h2, h3, h4, h5, _⟩ := loadIndexValues_ok_facts h
    have h2n : s.nullDepthEnd = nD := h2
    have h3n : s.baseDepthEnd = max nD bD := h3
    have h4n : s.coldDepthBegin = max nD bD := h4
    have h5n : s.coldDepthEnd = 0 := h5
    refine ⟨?_, ?_, ?_⟩
    · rw [h2n, h3n]
      exact Nat.le_max_left nD bD
    · simp [hasCold, h5n]
    · rw [h4n, h3n]

/-- Witness for C7: the first explicit constructor on the configuration
(nullDepth 3, baseDepth 5, coldDepth 0, chunkPoints 16, dimensions 2,
hint 9). -/
theorem explicit_ctor_clamps_depths_witness :
    structureOf 3 5 0 16 2 9 false (0, 0) = Except.ok c7s ∧
    c7s.nullDepthEnd ≤ c7s.baseDepthEnd ∧
    c7s.baseDepthEnd ≤ c7s.coldDepthEnd := by
  have h : structureOf 3 5 0 16 2 9 false (0, 0) = Except.ok c7s := by decide
  have h2 := explicit_ctor_clamps_depths.1 3 5 0 16 2 9 false (0, 0) c7s h
  exact ⟨h, h2.1, h2.2.1⟩

/-- Counterexample to C7 as stated: the configuration-document
constructor accepts nullDepth 10 with baseDepth 5 and returns a
structure with nullDepthEnd 10 above baseDepthEnd 5, so not every
construction path clamps the tier boundaries. -/
theorem json_ctor_no_clamp :
    (structureOfJson (JsonConfig.mk 10 5 0 16 2 1 false (0, 0))).map
      (fun s => (s.nullDepthEnd, s.baseDepthEnd)) = Except.ok (10, 5) := by
  decide

theorem log2_div_eq_nat_log {d n : Nat} (hd : 1 ≤ d) (hn : 1 ≤ n) :
    log2 n / d = Nat.log (2 ^ d) n := by
  symm
  apply Nat.log_eq_of_pow_le_of_lt_pow
  · rw [← pow_mul]
    have hq : d * (log2 n / d) ≤ log2 n := by
      have := Nat.div_add_mod (log2 n) d
      omega
    calc 2 ^ (d * (log2 n / d)) ≤ 2 ^ log2 n :=
          Nat.pow_le_pow_right (by norm_num) hq
      _ ≤ n := log2_lower hn
  · rw [← pow_mul]
    have h1 := log2_upper hn
    have h2 : log2 n + 1 ≤ d * (log2 n / d + 1) := by
      have hdm := Nat.div_add_mod (log2 n) d
      have hm : log2 n % d < d := Nat.mod_lt _ (by omega)
      have hx : d * (log2 n / d + 1) = d * (log2 n / d) + d := by ring
      omega
    calc n < 2 ^ (log2 n + 1) := h1
      _ ≤ 2 ^ (d * (log2 n / d + 1)) := Nat.pow_le_pow_right (by norm_num) h2

/-- Claim C4 (amended): on every successful run of the explicit
constructor, a positive numPointsHint yields
sparseDepthBegin = max(floor(log_F(numPointsHint)) + 1, coldDepthBegin)
with the spec formula expressed through Nat.log at base F = 2^dimensions,
together with its level index; numPointsHint = 0 leaves sparse tiering
disabled, and forward translation then uses the fixed regime at every
index when dynamic chunking is disabled (with dynamic chunking enabled
the adaptive branch is reachable, see the counterexample). -/
theorem sparseDepthBegin_derivation
    (nD bD cD C dims hint : Nat) (dyn : Bool) (sub : Nat × Nat)
    (s : Structure)
    (h : structureOf nD bD cD C dims hint dyn sub = Except.ok s) :
    (0 < hint →
      s.sparseDepthBegin =
        max (Nat.log (2 ^ dims) hint + 1) s.coldDepthBegin ∧
      s.sparseIndexBegin = calcLevelIndex dims s.sparseDepthBegin) ∧
    (hint = 0 →
      s.sparseDepthBegin = 0 ∧ s.sparseIndexBegin = 0 ∧
      hasSparse s = false ∧
      (dyn = false → ∀ i,
        (chunkInfoOf s i).chunkPoints = s.chunkPoints ∧
        (chunkInfoOf s i).chunkNum = (i - s.coldIndexBegin) / s.chunkPoints ∧
        (chunkInfoOf s i).chunkOffset =
          (i - s.coldIndexBegin) % s.chunkPoints)) := by
  obtain ⟨hfac, _, _, hcdb, _, _, hdyn, _, _, _, _, _, hpos, hzero⟩ :=
    loadIndexValues_ok_facts h
  have hfac2 : (1 <<< dims) = 4 ∨ (1 <<< dims) = 8 := hfac
  have hdims : dims = 2 ∨ dims = 3 := by
    rw [shiftLeft_one] at hfac2
    have h4 : (2 : Nat) ^ 2 = 4 := by norm_num
    have h8 : (2 : Nat) ^ 3 = 8 := by norm_num
    rcases hfac2 with hc | hc
    · left
      apply Nat.pow_right_injective (Nat.le_refl 2)
      show (2 : Nat) ^ dims = 2 ^ 2
      rw [hc]
    · right
      apply Nat.pow_right_injective (Nat.le_refl 2)
      show (2 : Nat) ^ dims = 2 ^ 3
      rw [hc]
  have hd1 : 1 ≤ dims := by rcases hdims with rfl | rfl <;> omega
  constructor
  · intro hp
    have hPos := hpos (show hint ≠ 0 by omega)
    have Hp1 : s.sparseDepthBegin =
        max (log2 hint / log2 (1 <<< dims) + 1) (max nD bD) := hPos.1
    have Hp2 : s.sparseIndexBegin =
        calcLevelIndex dims s.sparseDepthBegin := hPos.2
    have Hcdb : s.coldDepthBegin = max nD bD := hcdb
    refine ⟨?_, Hp2⟩
    have hlog : log2 hint / log2 (1 <<< dims) = Nat.log (2 ^ dims) hint := by
      rw [shiftLeft_one, log2_two_pow]
      exact log2_div_eq_nat_log hd1 (by omega)
    rw [Hp1, Hcdb, hlog]
  · intro h0
    have hZ := hzero h0
    have Hs1 : s.sparseDepthBegin = 0 := by
      rw [hZ.1]
    have Hs2 : s.sparseIndexBegin = 0 := by
      rw [hZ.2]
    refine ⟨Hs1, Hs2, ?_, ?_⟩
    · simp [hasSparse, Hs1]
    · intro hdf i
      have Hdy : s.dynamicChunks = false := by
        have hdd : s.dynamicChunks = dyn := hdyn
        rw [hdd, hdf]
      rw [chunkInfoOf_fixed s i (Or.inl Hdy)]
      exact ⟨rfl, rfl, rfl⟩

/-- Witness for C4: hint one million, dimensions 3, coldDepthBegin 8
gives sparseDepthBegin 8. -/
theorem sparseDepthBegin_derivation_witness :
    structureOf 0 8 0 64 3 1000000 true (0, 0) = Except.ok c4s ∧
    c4s.sparseDepthBegin =
      max (Nat.log (2 ^ 3) 1000000 + 1) c4s.coldDepthBegin ∧
    c4s.sparseDepthBegin = 8 := by
  have h : structureOf 0 8 0 64 3 1000000 true (0, 0) = Except.ok c4s := by
    decide
  refine ⟨h, ?_, by decide⟩
  exact ((sparseDepthBegin_derivation 0 8 0 64 3 1000000 true (0, 0) c4s
    h).1 (by norm_num)).1

/-- Counterexample to C4 as stated: with numPointsHint 0 construction
succeeds and sparse tiering is disabled, but with dynamic chunking
enabled the forward translation does not use the fixed regime at every
depth: at node index 85 (the cold boundary, depth 4) the computed chunk
capacity is 4096, not the fixed capacity 16. -/
theorem hint_zero_dynamic_adaptive_regime :
    (structureOf2 0 4 16 2 0 true (0, 0)).map
        (fun s => ((chunkInfoOf s 85).chunkPoints, s.chunkPoints)) =
      Except.ok (4096, 16) := by decide

theorem getInfoFromNum_fixedPath (s : Structure) (h1 : hasCold s = true)
    (h2 : ¬(hasSparse s = true ∧ s.dynamicChunks = true)) (n : Nat) :
    getInfoFromNum s n =
      chunkInfoOf s (s.coldIndexBegin + n * s.chunkPoints) := by
  simp only [getInfoFromNum]
  rw [if_pos h1, if_neg h2]

theorem getInfoFromNum_dynLow (s : Structure) (h1 : hasCold s = true)
    (h2 : hasSparse s = true ∧ s.dynamicChunks = true) (n : Nat)
    (h3 : n < (calcLevelIndex s.dimensions (s.sparseDepthBegin + 1) -
      s.coldIndexBegin) / s.chunkPoints) :
    getInfoFromNum s n =
      chunkInfoOf s (s.coldIndexBegin + n * s.chunkPoints) := by
  simp only [getInfoFromNum]
  rw [if_pos h1, if_pos h2, if_pos h3]

theorem getInfoFromNum_dynHigh (s : Structure) (h1 : hasCold s = true)
    (h2 : hasSparse s = true ∧ s.dynamicChunks = true) (n : Nat)
    (h3 : ¬(n < (calcLevelIndex s.dimensions (s.sparseDepthBegin + 1) -
      s.coldIndexBegin) / s.chunkPoints)) :
    getInfoFromNum s n = chunkInfoOf s
      (calcLevelIndex s.dimensions
          (s.sparseDepthBegin + 1 +
            (n - (calcLevelIndex s.dimensions (s.sparseDepthBegin + 1) -
              s.coldIndexBegin) / s.chunkPoints) /
              numChunksAtDepth s s.sparseDepthBegin) +
        ((n - (calcLevelIndex s.dimensions (s.sparseDepthBegin + 1) -
            s.coldIndexBegin) / s.chunkPoints) %
            numChunksAtDepth s s.sparseDepthBegin) *
          (pointsAtDepth s.dimensions
              (s.sparseDepthBegin + 1 +
                (n - (calcLevelIndex s.dimensions (s.sparseDepthBegin + 1) -
                  s.coldIndexBegin) / s.chunkPoints) /
                  numChunksAtDepth s s.sparseDepthBegin) /
            numChunksAtDepth s s.sparseDepthBegin)) := by
  simp only [getInfoFromNum]
  rw [if_pos h1, if_pos h2, if_neg h3]

theorem numChunksAtDepth_at_sparse (s : Structure) (hd : 1 ≤ s.dimensions) :
    numChunksAtDepth s s.sparseDepthBegin =
      2 ^ (s.sparseDepthBegin * s.dimensions) / s.chunkPoints := by
  rw [numChunksAtDepth, if_pos (Or.inr (Or.inr (Nat.le_refl _)))]
  rw [calcLevelIndex_succ _ _ hd, Nat.add_sub_cancel_left]

theorem chunkInfoOf_adaptive_chunkNum (s : Structure)
    (hd : 1 ≤ s.dimensions)
    (hF : s.factor = 2 ^ s.dimensions)
    (hC : 0 < s.chunkPoints)
    (hdy : s.dynamicChunks = true)
    (hsib : s.sparseIndexBegin =
      calcLevelIndex s.dimensions s.sparseDepthBegin)
    (hcdvd : s.chunkPoints ∣ 2 ^ (s.sparseDepthBegin * s.dimensions))
    (q r : Nat)
    (hr : r < 2 ^ (s.sparseDepthBegin * s.dimensions) / s.chunkPoints) :
    (chunkInfoOf s
        (calcLevelIndex s.dimensions (s.sparseDepthBegin + 1 + q) +
          r * (s.chunkPoints * 2 ^ ((1 + q) * s.dimensions)))).chunkNum =
      (s.sparseIndexBegin - s.coldIndexBegin) / s.chunkPoints +
        (2 ^ (s.sparseDepthBegin * s.dimensions) / s.chunkPoints) * (1 + q) +
        r := by
  have hppos : 0 < s.chunkPoints * 2 ^ ((1 + q) * s.dimensions) :=
    Nat.mul_pos hC (Nat.pos_pow_of_pos _ (by norm_num))
  have hcpsdC : (2 ^ (s.sparseDepthBegin * s.dimensions) / s.chunkPoints) *
      s.chunkPoints = 2 ^ (s.sparseDepthBegin * s.dimensions) :=
    Nat.div_mul_cancel hcdvd
  have hptstot : (2 ^ (s.sparseDepthBegin * s.dimensions) / s.chunkPoints) *
      (s.chunkPoints * 2 ^ ((1 + q) * s.dimensions)) =
      2 ^ ((s.sparseDepthBegin + 1 + q) * s.dimensions) := by
    rw [← mul_assoc, hcpsdC, ← pow_add]
    congr 1
    ring
  have hchunklt : r * (s.chunkPoints * 2 ^ ((1 + q) * s.dimensions)) <
      2 ^ ((s.sparseDepthBegin + 1 + q) * s.dimensions) := by
    calc r * (s.chunkPoints * 2 ^ ((1 + q) * s.dimensions))
        < (2 ^ (s.sparseDepthBegin * s.dimensions) / s.chunkPoints) *
            (s.chunkPoints * 2 ^ ((1 + q) * s.dimensions)) :=
          (Nat.mul_lt_mul_right hppos).mpr hr
      _ = 2 ^ ((s.sparseDepthBegin + 1 + q) * s.dimensions) := hptstot
  have hrange1 : calcLevelIndex s.dimensions (s.sparseDepthBegin + 1 + q) ≤
      calcLevelIndex s.dimensions (s.sparseDepthBegin + 1 + q) +
        r * (s.chunkPoints * 2 ^ ((1 + q) * s.dimensions)) :=
    Nat.le_add_right _ _
  have hrange2 : calcLevelIndex s.dimensions (s.sparseDepthBegin + 1 + q) +
      r * (s.chunkPoints * 2 ^ ((1 + q) * s.dimensions)) <
      calcLevelIndex s.dimensions (s.sparseDepthBegin + 1 + q + 1) := by
    rw [calcLevelIndex_succ _ _ hd]
    exact Nat.add_lt_add_left hchunklt _
  have hdep : calcDepth (2 ^ s.dimensions)
      (calcLevelIndex s.dimensions (s.sparseDepthBegin + 1 + q) +
        r * (s.chunkPoints * 2 ^ ((1 + q) * s.dimensions))) =
      s.sparseDepthBegin + 1 + q :=
    calcDepth_range s.dimensions hd hrange1 hrange2
  have hdepF : calcDepth s.factor
      (calcLevelIndex s.dimensions (s.sparseDepthBegin + 1 + q) +
        r * (s.chunkPoints * 2 ^ ((1 + q) * s.dimensions))) =
      s.sparseDepthBegin + 1 + q := by
    rw [hF]
    exact hdep
  have hcond : ¬(s.dynamicChunks = false ∨
      calcLevelIndex s.dimensions (calcDepth s.factor
        (calcLevelIndex s.dimensions (s.sparseDepthBegin + 1 + q) +
          r * (s.chunkPoints * 2 ^ ((1 + q) * s.dimensions)))) ≤
        s.sparseIndexBegin) := by
    push_neg
    constructor
    · rw [hdy]
      simp
    · rw [hdepF, hsib]
      exact calcLevelIndex_strict s.dimensions hd (by omega)
  rw [chunkInfoOf_sparse s _ hcond]
  show (s.sparseIndexBegin - s.coldIndexBegin) / s.chunkPoints +
      pointsAtDepth s.dimensions s.sparseDepthBegin / s.chunkPoints *
        (calcDepth s.factor
            (calcLevelIndex s.dimensions (s.sparseDepthBegin + 1 + q) +
              r * (s.chunkPoints * 2 ^ ((1 + q) * s.dimensions))) -
          s.sparseDepthBegin) +
      (calcLevelIndex s.dimensions (s.sparseDepthBegin + 1 + q) +
          r * (s.chunkPoints * 2 ^ ((1 + q) * s.dimensions)) -
          calcLevelIndex s.dimensions (calcDepth s.factor
            (calcLevelIndex s.dimensions (s.sparseDepthBegin + 1 + q) +
              r * (s.chunkPoints * 2 ^ ((1 + q) * s.dimensions))))) /
        (s.chunkPoints * binaryPow s.dimensions
          (calcDepth s.factor
              (calcLevelIndex s.dimensions (s.sparseDepthBegin + 1 + q) +
                r * (s.chunkPoints * 2 ^ ((1 + q) * s.dimensions))) -
            s.sparseDepthBegin)) = _
  rw [hdepF]
  have hk : s.sparseDepthBegin + 1 + q - s.sparseDepthBegin = 1 + q := by
    omega
  rw [hk, binaryPow_eq, pointsAtDepth_eq, Nat.add_sub_cancel_left,
    Nat.mul_div_cancel r hppos]

/-- Claim C2 (amended): for a Structure with a cold tier whose derived
index fields satisfy the construction invariants (coldIndexBegin at the
level index of coldDepthBegin, chunk capacity a positive divisor of the
node count of the first cold level), the ChunkInfo returned by
getInfoFromNum re-derives its chunk sequence number, for every sequence
number, whenever dynamic chunking is disabled or sparse tiering is
active; the combination dynamic-chunks-and-no-sparse breaks the round
trip (see the counterexample). -/
theorem getInfoFromNum_chunkNum_roundTrip (s : Structure)
    (hd : 1 ≤ s.dimensions)
    (hF : s.factor = 2 ^ s.dimensions)
    (hC : 0 < s.chunkPoints)
    (hcold : hasCold s = true)
    (hcib : s.coldIndexBegin = calcLevelIndex s.dimensions s.coldDepthBegin)
    (hdvd : s.chunkPoints ∣ 2 ^ (s.coldDepthBegin * s.dimensions))
    (hreg : s.dynamicChunks = false ∨
      (hasSparse s = true ∧
       s.sparseIndexBegin = calcLevelIndex s.dimensions s.sparseDepthBegin ∧
       s.coldDepthBegin ≤ s.sparseDepthBegin))
    (n : Nat) :
    (getInfoFromNum s n).chunkNum = n := by
  by_cases hdy : s.dynamicChunks = true
  case neg =>
    have hdyf : s.dynamicChunks = false := Bool.eq_false_iff.mpr hdy
    rw [getInfoFromNum_fixedPath s hcold (by simp [hdyf]) n,
      chunkInfoOf_fixed s _ (Or.inl hdyf)]
    show (s.coldIndexBegin + n * s.chunkPoints - s.coldIndexBegin) /
        s.chunkPoints = n
    rw [Nat.add_sub_cancel_left, Nat.mul_div_cancel n hC]
  case pos =>
    rcases hreg with hfalse | ⟨hsp, hsib, hbs⟩
    · rw [hdy] at hfalse
      simp at hfalse
    have hCdvd_sb : s.chunkPoints ∣
        2 ^ (s.sparseDepthBegin * s.dimensions) :=
      hdvd.trans (pow_dvd_pow 2 (Nat.mul_le_mul_right _ hbs))
    have hcpsd_pos : 0 <
        2 ^ (s.sparseDepthBegin * s.dimensions) / s.chunkPoints :=
      Nat.div_pos
        (Nat.le_of_dvd (Nat.pos_pow_of_pos _ (by norm_num)) hCdvd_sb) hC
    by_cases hn : n < (calcLevelIndex s.dimensions (s.sparseDepthBegin + 1) -
        s.coldIndexBegin) / s.chunkPoints
    · rw [getInfoFromNum_dynLow s hcold ⟨hsp, hdy⟩ n hn]
      have hcible : s.coldIndexBegin ≤
          calcLevelIndex s.dimensions (s.sparseDepthBegin + 1) := by
        rw [hcib]
        exact calcLevelIndex_mono _ hd (by omega)
      have hlt : s.coldIndexBegin + n * s.chunkPoints <
          calcLevelIndex s.dimensions (s.sparseDepthBegin + 1) := by
        have h1 : n + 1 ≤
            (calcLevelIndex s.dimensions (s.sparseDepthBegin + 1) -
              s.coldIndexBegin) / s.chunkPoints := hn
        have h2 : (n + 1) * s.chunkPoints ≤
            ((calcLevelIndex s.dimensions (s.sparseDepthBegin + 1) -
              s.coldIndexBegin) / s.chunkPoints) * s.chunkPoints :=
          Nat.mul_le_mul_right _ h1
        have h3 : ((calcLevelIndex s.dimensions (s.sparseDepthBegin + 1) -
            s.coldIndexBegin) / s.chunkPoints) * s.chunkPoints ≤
            calcLevelIndex s.dimensions (s.sparseDepthBegin + 1) -
              s.coldIndexBegin :=
          Nat.div_mul_le_self _ _
        have h4 : (n + 1) * s.chunkPoints = n * s.chunkPoints +
            s.chunkPoints := by ring
        omega
      have hdep : calcDepth (2 ^ s.dimensions)
          (s.coldIndexBegin + n * s.chunkPoints) ≤ s.sparseDepthBegin :=
        calcDepth_le_of_lt s.dimensions hd hlt
      have hcond : calcLevelIndex s.dimensions (calcDepth s.factor
          (s.coldIndexBegin + n * s.chunkPoints)) ≤ s.sparseIndexBegin := by
        rw [hF, hsib]
        exact calcLevelIndex_mono _ hd hdep
      rw [chunkInfoOf_fixed s _ (Or.inr hcond)]
      show (s.coldIndexBegin + n * s.chunkPoints - s.coldIndexBegin) /
          s.chunkPoints = n
      rw [Nat.add_sub_cancel_left, Nat.mul_div_cancel n hC]
    · rw [getInfoFromNum_dynHigh s hcold ⟨hsp, hdy⟩ n hn,
        numChunksAtDepth_at_sparse s hd]
      have hdcs : pointsAtDepth s.dimensions
          (s.sparseDepthBegin + 1 +
            (n - (calcLevelIndex s.dimensions (s.sparseDepthBegin + 1) -
              s.coldIndexBegin) / s.chunkPoints) /
              (2 ^ (s.sparseDepthBegin * s.dimensions) / s.chunkPoints)) /
          (2 ^ (s.sparseDepthBegin * s.dimensions) / s.chunkPoints) =
          s.chunkPoints * 2 ^ ((1 +
            (n - (calcLevelIndex s.dimensions (s.sparseDepthBegin + 1) -
              s.coldIndexBegin) / s.chunkPoints) /
              (2 ^ (s.sparseDepthBegin * s.dimensions) / s.chunkPoints)) *
            s.dimensions) := by
        rw [pointsAtDepth_eq]
        have hcpsdC : (2 ^ (s.sparseDepthBegin * s.dimensions) /
            s.chunkPoints) * s.chunkPoints =
            2 ^ (s.sparseDepthBegin * s.dimensions) :=
          Nat.div_mul_cancel hCdvd_sb
        have hsplit : 2 ^ ((s.sparseDepthBegin + 1 +
            (n - (calcLevelIndex s.dimensions (s.sparseDepthBegin + 1) -
              s.coldIndexBegin) / s.chunkPoints) /
              (2 ^ (s.sparseDepthBegin * s.dimensions) / s.chunkPoints)) *
            s.dimensions) =
            (2 ^ (s.sparseDepthBegin * s.dimensions) / s.chunkPoints) *
            (s.chunkPoints * 2 ^ ((1 +
              (n - (calcLevelIndex s.dimensions (s.sparseDepthBegin + 1) -
                s.coldIndexBegin) / s.chunkPoints) /
                (2 ^ (s.sparseDepthBegin * s.dimensions) / s.chunkPoints)) *
              s.dimensions)) := by
          rw [← mul_assoc, hcpsdC, ← pow_add]
          congr 1
          ring
        rw [hsplit, Nat.mul_div_cancel_left _ hcpsd_pos]
      rw [hdcs]
      rw [chunkInfoOf_adaptive_chunkNum s hd hF hC hdy hsib hCdvd_sb _ _
        (Nat.mod_lt _ hcpsd_pos)]
      rw [hsib, hcib]
      rw [hcib] at hn
      have hmono_bs : calcLevelIndex s.dimensions s.coldDepthBegin ≤
          calcLevelIndex s.dimensions s.sparseDepthBegin :=
        calcLevelIndex_mono _ hd hbs
      have hsucc : calcLevelIndex s.dimensions (s.sparseDepthBegin + 1) =
          calcLevelIndex s.dimensions s.sparseDepthBegin +
            2 ^ (s.sparseDepthBegin * s.dimensions) :=
        calcLevelIndex_succ _ _ hd
      have hdvdsub : s.chunkPoints ∣
          (calcLevelIndex s.dimensions s.sparseDepthBegin -
            calcLevelIndex s.dimensions s.coldDepthBegin) :=
        chunkPoints_dvd_levelIndex_sub s.dimensions hd hdvd hbs
      have hfix2 : (calcLevelIndex s.dimensions (s.sparseDepthBegin + 1) -
          calcLevelIndex s.dimensions s.coldDepthBegin) / s.chunkPoints =
          (calcLevelIndex s.dimensions s.sparseDepthBegin -
            calcLevelIndex s.dimensions s.coldDepthBegin) / s.chunkPoints +
          2 ^ (s.sparseDepthBegin * s.dimensions) / s.chunkPoints := by
        have hstep : calcLevelIndex s.dimensions (s.sparseDepthBegin + 1) -
            calcLevelIndex s.dimensions s.coldDepthBegin =
            (calcLevelIndex s.dimensions s.sparseDepthBegin -
              calcLevelIndex s.dimensions s.coldDepthBegin) +
            2 ^ (s.sparseDepthBegin * s.dimensions) := by
          rw [hsucc]
          exact Nat.sub_add_comm hmono_bs
        rw [hstep]
        exact Nat.add_div_of_dvd_right hdvdsub
      have hfle : (calcLevelIndex s.dimensions (s.sparseDepthBegin + 1) -
          calcLevelIndex s.dimensions s.coldDepthBegin) / s.chunkPoints ≤
          n := by omega
      have hmod := Nat.div_add_mod
        (n - (calcLevelIndex s.dimensions (s.sparseDepthBegin + 1) -
          calcLevelIndex s.dimensions s.coldDepthBegin) / s.chunkPoints)
        (2 ^ (s.sparseDepthBegin * s.dimensions) / s.chunkPoints)
      have hmul : (2 ^ (s.sparseDepthBegin * s.dimensions) / s.chunkPoints) *
          (1 + (n - (calcLevelIndex s.dimensions (s.sparseDepthBegin + 1) -
            calcLevelIndex s.dimensions s.coldDepthBegin) / s.chunkPoints) /
            (2 ^ (s.sparseDepthBegin * s.dimensions) / s.chunkPoints)) =
          (2 ^ (s.sparseDepthBegin * s.dimensions) / s.chunkPoints) +
          (2 ^ (s.sparseDepthBegin * s.dimensions) / s.chunkPoints) *
          ((n - (calcLevelIndex s.dimensions (s.sparseDepthBegin + 1) -
            calcLevelIndex s.dimensions s.coldDepthBegin) / s.chunkPoints) /
            (2 ^ (s.sparseDepthBegin * s.dimensions) / s.chunkPoints)) := by
        ring
      omega

/-- Witness for C2: the sparse-enabled structure sC2 at sequence number
100, which lands in the adaptive tier. -/
theorem getInfoFromNum_chunkNum_roundTrip_witness :
    hasCold sC2 = true ∧ (getInfoFromNum sC2 100).chunkNum = 100 :=
  ⟨by decide,
    getInfoFromNum_chunkNum_roundTrip sC2 (by decide) (by decide)
      (by decide) (by decide) (by decide) (by decide)
      (Or.inr ⟨by decide, by decide, by decide⟩) 100⟩

/-- Counterexample to C2 as stated: on a Structure with a cold tier,
dynamic chunking enabled and no point-count hint (so no sparse tier),
sequence number 1 lies in the valid range (depth 4 holds 16 chunks) yet
chunkAt(1) carries chunk sequence number 0, so the round trip fails. -/
theorem roundTrip_fails_dynamic_without_sparse :
    hasCold sC2bad = true ∧ numChunksAtDepth sC2bad 4 = 16 ∧
    (getInfoFromNum sC2bad 1).chunkNum = 0 := by decide

end Entwine
